import Mathlib

/-!
Shallow embedding of the Aerospace Compliance Checker core pipeline
(`app.py`, class `ComplianceChecker`).  Texts and cell values are Lean
`String`s (logically lists of characters); a pandas `NaN` cell is `none`;
Python truthiness of an optional column name is `Option.isSome`.
Python's list mutation (`self.violations.append ...`) is translated to
explicit state passing on a `Checker` record, with each validator
appending its findings in the order the source appends them.
-/

namespace AeroCheck

/-- Python `s.lower()` restricted to the ASCII texts the checker handles. -/
def pyLower (s : String) : String :=
  ⟨s.data.map Char.toLower⟩

/-- Python `s.upper()` restricted to the ASCII texts the checker handles. -/
def pyUpper (s : String) : String :=
  ⟨s.data.map Char.toUpper⟩

/-- Test whether `needle` occurs as a contiguous run at some position of `hay`. -/
def charsIn : List Char → List Char → Bool
  | n, [] => n.isEmpty
  | n, h :: t => List.isPrefixOf n (h :: t) || charsIn n t

/-- Python `needle in hay` on strings: substring containment. -/
def pyIn (needle hay : String) : Bool :=
  charsIn needle.data hay.data

/-- A finding dictionary as built in `app.py` (`rule`, `description`,
`severity`, `fix`, optional `cost_impact`, optional `location`). -/
structure Finding where
  rule : String
  description : String
  severity : String
  fix : String
  costImpact : Option String := none
  loc : Option String := none
deriving DecidableEq, Repr

/-- The mutable state of a `ComplianceChecker` instance
(`self.violations`, `self.warnings`, `self.risk_score`, `self.checked_items`). -/
structure Checker where
  violations : List Finding
  warnings : List Finding
  riskScore : Nat
  checkedItems : Nat
deriving DecidableEq, Repr

/-- A fresh `ComplianceChecker()` (`__init__`). -/
def initChecker : Checker :=
  { violations := [], warnings := [], riskScore := 0, checkedItems := 0 }

/-! ### Drawing text checks -/

/-- Embedding of `_check_itar_marking`: any ITAR keyword, lowercased, occurs in the
lowercased text. -/
def checkItarMarking (text : String) : Bool :=
  [ "ITAR", "export control", "EAR99", "22 CFR",
    "International Traffic in Arms", "export license"
  ].any (fun k => pyIn (pyLower k) (pyLower text))

/-- The restricted-material lexicon of `_check_restricted_materials`. -/
def drawingRestricted : List String :=
  [ "beryllium copper", "cadmium", "mercury", "lead",
    "hexavalent chromium", "asbestos" ]

/-- Embedding of `_check_restricted_materials`: lexicon entries found (lowercased
substring), in lexicon order. -/
def checkRestrictedMaterials (text : String) : List String :=
  drawingRestricted.filter (fun m => pyIn (pyLower m) (pyLower text))

/-- Python regex `\s` on the ASCII range (re module whitespace class). -/
def isPySpace (c : Char) : Bool :=
  c == ' ' || c == '\t' || c == '\n' || c == '\r' || c == '\x0b' || c == '\x0c'

/-- Character class `[A-Z0-9]`. -/
def isUpperOrDigit (c : Char) : Bool :=
  ('A' ≤ c && c ≤ 'Z') || ('0' ≤ c && c ≤ '9')

/-- Character class `[0-9.]`. -/
def isDigitOrDot (c : Char) : Bool :=
  c.isDigit || c == '.'

/-- After `\s*`, does a `[A-Z0-9]+` match start here?  (Existence of a
match is unaffected by greediness: `[A-Z0-9]` is never whitespace.) -/
def wsThenUpperDigit (l : List Char) : Bool :=
  match l.dropWhile isPySpace with
  | c :: _ => isUpperOrDigit c
  | [] => false

/-- After `\s*`, does a `[0-9.]+` match start here? -/
def wsThenDigitDot (l : List Char) : Bool :=
  match l.dropWhile isPySpace with
  | c :: _ => isDigitOrDot c
  | [] => false

/-- Does `[Rr]ev[ision]?\s*[A-Z0-9]+` match at this position?  `[ision]?`
optionally consumes one character of the class; existence of a match is
the disjunction over both choices. -/
def revMatchAt : List Char → Bool
  | c1 :: 'e' :: 'v' :: rest =>
      (c1 == 'R' || c1 == 'r') &&
        (wsThenUpperDigit rest ||
          (match rest with
           | d :: rest2 =>
               (d == 'i' || d == 's' || d == 'o' || d == 'n') &&
                 wsThenUpperDigit rest2
           | [] => false))
  | _ => false

/-- Does `[Vv]ersion\s*[0-9.]+` match at this position? -/
def verMatchAt : List Char → Bool
  | c1 :: 'e' :: 'r' :: 's' :: 'i' :: 'o' :: 'n' :: rest =>
      (c1 == 'V' || c1 == 'v') && wsThenDigitDot rest
  | _ => false

/-- Match between `minRep` and `minRep + extra` characters of class `p`,
then the continuation `k`; existence semantics (disjunction over the
number of repetitions actually taken). -/
def repCls (p : Char → Bool) (k : List Char → Bool) :
    Nat → Nat → List Char → Bool
  | 0, 0, l => k l
  | 0, Nat.succ e, l =>
      k l ||
        (match l with
         | c :: rest => p c && repCls p k 0 e rest
         | [] => false)
  | Nat.succ m, e, l =>
      match l with
      | c :: rest => p c && repCls p k m e rest
      | [] => false

/-- Slash-or-dash, then one or two digits, then slash-or-dash, then two
to four digits (the tail of the date pattern). -/
def dateTail2 (l : List Char) : Bool :=
  match l with
  | c :: rest =>
      (c == '/' || c == '-') &&
        repCls Char.isDigit
          (fun l2 =>
            match l2 with
            | c2 :: rest2 =>
                (c2 == '/' || c2 == '-') &&
                  repCls Char.isDigit (fun _ => true) 2 2 rest2
            | [] => false)
          1 1 rest
  | [] => false

/-- Does the date pattern (`Date:` or `date:`, optional whitespace, one
or two digits, slash-or-dash, one or two digits, slash-or-dash, two to
four digits) match at this position? -/
def dateMatchAt : List Char → Bool
  | c1 :: 'a' :: 't' :: 'e' :: ':' :: rest =>
      (c1 == 'D' || c1 == 'd') &&
        repCls Char.isDigit dateTail2 1 1 (rest.dropWhile isPySpace)
  | _ => false

/-- Embedding of `re.search`: the pattern matches at some position of the text. -/
def searchAny (matchAt : List Char → Bool) : List Char → Bool
  | [] => matchAt []
  | l@(_ :: rest) => matchAt l || searchAny matchAt rest

/-- Embedding of `_check_revision_marking`: any of the three revision regexes matches. -/
def checkRevisionMarking (text : String) : Bool :=
  searchAny revMatchAt text.data ||
    searchAny verMatchAt text.data ||
      searchAny dateMatchAt text.data

/-- Embedding of `_check_traceability`: any traceability keyword, lowercased, occurs in
the lowercased text. -/
def checkTraceability (text : String) : Bool :=
  [ "serial number", "lot number", "batch",
    "traceability", "track", "S/N", "L/N"
  ].any (fun k => pyIn (pyLower k) (pyLower text))

/-! ### Drawing findings (`_validate_technical_drawing`) -/

/-- The ITAR-001 violation emitted when no export marking is found. -/
def itarMarkingViolation : Finding :=
  { rule := "ITAR-001"
    description := "Missing ITAR export control statement"
    severity := "HIGH"
    fix := "Add standard ITAR warning to title block"
    costImpact := some "$10,000-$100,000 potential fine" }

/-- The AS9100-MAT-001 violation for one detected material. -/
def materialViolation (material : String) : Finding :=
  { rule := "AS9100-MAT-001"
    description := "Restricted material detected: " ++ material
    severity := "HIGH"
    fix := "Replace " ++ material ++ " with approved alternative"
    costImpact := some "Potential rejection of entire batch" }

/-- The AS9100-DOC-002 warning when no revision marking is found. -/
def revisionWarning : Finding :=
  { rule := "AS9100-DOC-002"
    description := "No revision number detected"
    severity := "MEDIUM"
    fix := "Add revision letter/number to title block" }

/-- The AS9100-TRACE-001 violation when no traceability note is found. -/
def traceabilityViolation : Finding :=
  { rule := "AS9100-TRACE-001"
    description := "Missing traceability requirements"
    severity := "HIGH"
    fix := "Add serial number or lot traceability note" }

/-- The SYSTEM warning of the drawing `except` branch. -/
def drawingSystemWarning (e : String) : Finding :=
  { rule := "SYSTEM"
    description := "Could not fully parse drawing: " ++ e
    severity := "LOW"
    fix := "Manual review recommended" }

/-- Net effect of `_validate_technical_drawing` on the two finding lists:
the pair (violations appended, warnings appended), in the source's append
order.  The input is the result of `_extract_pdf_text`: `.error e` when
PDF extraction raised (the `except` branch fires), `.ok text` otherwise. -/
def drawingFindings : Except String String → List Finding × List Finding
  | .error e => ([], [drawingSystemWarning e])
  | .ok text =>
      ( (if checkItarMarking text then [] else [itarMarkingViolation]) ++
          (checkRestrictedMaterials text).map materialViolation ++
          (if checkTraceability text then [] else [traceabilityViolation])
      , if checkRevisionMarking text then [] else [revisionWarning] )

/-! ### BOM model and findings (`_validate_bom`) -/

/-- One BOM row: column name to cell.  `none` models a pandas `NaN` cell
(`pd.isna` true); `some s` a present cell whose `str()` is `s`.  A
DataFrame row carries every column of the frame. -/
def BomRow := List (String × Option String)

/-- A decoded BOM (`pd.read_excel` / `pd.read_csv` result). -/
structure BomData where
  columns : List String
  rows : List BomRow

/-- Cell lookup, `row.get(col)`, for a column of the frame. -/
def rowGet (r : BomRow) (c : String) : Option String :=
  match r.find? (fun p => p.1 == c) with
  | some p => p.2
  | none => none

/-- Python `str()` of a cell as used on `row.get(part_col, '')` and in
f-strings: a `NaN` cell renders as `"nan"`. -/
def strOfCell : Option String → String
  | some s => s
  | none => "nan"

/-- Value of `row.get(part_col, "Unknown")` rendered in an f-string when the part
column may be absent (`part_col is None`): pandas `Series.get(None, d)`
returns the default. -/
def partDisplay (partCol : Option String) (r : BomRow) : String :=
  match partCol with
  | some pc => strOfCell (rowGet r pc)
  | none => "Unknown"

/-- Embedding of `_find_column`: first column whose lowercased name contains some
lowercased candidate name. -/
def findColumn (cols : List String) (names : List String) : Option String :=
  cols.find? (fun col => names.any (fun n => pyIn (pyLower n) (pyLower col)))

/-- Embedding of `_is_itar_controlled`: the uppercased part number contains an ITAR
indicator substring. -/
def isItarControlled (partNumber : String) : Bool :=
  ["MIL-", "MS", "NAS", "AN", "CAGE"].any
    (fun ind => pyIn ind (pyUpper partNumber))

/-- Embedding of `_is_restricted_material`: the uppercased material contains a
restricted-material substring. -/
def isRestrictedMaterial (material : String) : Bool :=
  ["BERYLLIUM", "CADMIUM", "MERCURY", "LEAD", "CHROMIUM VI", "ASBESTOS"].any
    (fun r => pyIn r (pyUpper material))

/-- Embedding of `_is_certified_supplier`: the uppercased supplier contains a
certified-supplier substring. -/
def isCertifiedSupplier (supplier : String) : Bool :=
  ["BOEING", "LOCKHEED", "RAYTHEON", "NORTHROP",
   "HONEYWELL", "COLLINS", "PARKER", "EATON"].any
    (fun cert => pyIn cert (pyUpper supplier))

/-- Location string `'Row {idx + 2}'`: 0-based frame index plus 2 for header and 0-index. -/
def rowLoc (idx : Nat) : String :=
  "Row " ++ toString (idx + 2)

/-- The ITAR-BOM-001 warning check for one row (`idx` is the 0-based frame
index; fires only when a part column was found). -/
def itarRowFinding (partCol : Option String) (idx : Nat) (r : BomRow) :
    List Finding :=
  match partCol with
  | none => []
  | some pc =>
      if isItarControlled (strOfCell (rowGet r pc)) then
        [{ rule := "ITAR-BOM-001"
           description := "ITAR controlled part: " ++ strOfCell (rowGet r pc)
           severity := "HIGH"
           fix := "Ensure proper export licensing"
           loc := some (rowLoc idx) }]
      else []

/-- The AS9100-MAT-002 violation check for one row. -/
def materialRowFinding (partCol materialCol : Option String) (idx : Nat)
    (r : BomRow) : List Finding :=
  match materialCol with
  | none => []
  | some mc =>
      match rowGet r mc with
      | none => []
      | some v =>
          let material := pyUpper v
          if isRestrictedMaterial material then
            [{ rule := "AS9100-MAT-002"
               description := "Restricted material in BOM: " ++ material
               severity := "HIGH"
               fix := "Replace with approved material"
               loc := some (rowLoc idx ++ ", Part: " ++ partDisplay partCol r) }]
          else []

/-- The AS9100-SUP-001 warning check for one row. -/
def supplierRowFinding (supplierCol : Option String) (idx : Nat)
    (r : BomRow) : List Finding :=
  match supplierCol with
  | none => []
  | some sc =>
      match rowGet r sc with
      | none => []
      | some v =>
          if isCertifiedSupplier v then []
          else
            [{ rule := "AS9100-SUP-001"
               description := "Non-certified supplier: " ++ v
               severity := "MEDIUM"
               fix := "Verify AS9100 certification status"
               loc := some (rowLoc idx) }]

/-- The AS9100-DATA-001 violation check for one row. -/
def missingPartRowFinding (partCol : Option String) (idx : Nat)
    (r : BomRow) : List Finding :=
  match partCol with
  | none => []
  | some pc =>
      match rowGet r pc with
      | none =>
          [{ rule := "AS9100-DATA-001"
             description := "Missing part number"
             severity := "HIGH"
             fix := "All items must have part numbers"
             loc := some (rowLoc idx) }]
      | some _ => []

/-- Violations appended by one iteration of the row loop, in source
order: material check, then missing-part check. -/
def bomRowViolations (partCol materialCol : Option String)
    (ir : Nat × BomRow) : List Finding :=
  materialRowFinding partCol materialCol ir.1 ir.2 ++
    missingPartRowFinding partCol ir.1 ir.2

/-- Warnings appended by one iteration of the row loop, in source order:
ITAR check, then supplier check. -/
def bomRowWarnings (partCol supplierCol : Option String)
    (ir : Nat × BomRow) : List Finding :=
  itarRowFinding partCol ir.1 ir.2 ++
    supplierRowFinding supplierCol ir.1 ir.2

/-- The SYSTEM warning of the BOM `except` branch. -/
def bomSystemWarning (e : String) : Finding :=
  { rule := "SYSTEM"
    description := "Error processing BOM: " ++ e
    severity := "MEDIUM"
    fix := "Check file format and structure" }

/-- Net effect of `_validate_bom`: (violations appended, warnings
appended, new `checked_items` when set).  The `for idx, row in
df.iterrows()` loop visits rows in order, so each finding list is the
row-order concatenation of the per-row contributions.  The input is
`.error e` when decoding the file raised (the `except` branch fires). -/
def bomFindings : Except String BomData →
    List Finding × List Finding × Option Nat
  | .error e => ([], [bomSystemWarning e], none)
  | .ok bom =>
      let partCol := findColumn bom.columns ["Part Number", "P/N", "Part"]
      let materialCol := findColumn bom.columns ["Material", "Mat", "Composition"]
      let supplierCol := findColumn bom.columns ["Supplier", "Vendor", "Manufacturer"]
      ( (bom.rows.enumFrom 0).flatMap (bomRowViolations partCol materialCol)
      , (bom.rows.enumFrom 0).flatMap (bomRowWarnings partCol supplierCol)
      , some bom.rows.length )

/-! ### Top-level validation and report -/

/-- A validation request: the document type together with the decoded
artifact (or the exception the decoder raised). -/
inductive DocInput where
  | drawing (text : Except String String)
  | bom (data : Except String BomData)
  | other

/-- Embedding of `_validate_technical_drawing` as a state transformer. -/
def validateDrawing (c : Checker) (input : Except String String) : Checker :=
  { c with
    violations := c.violations ++ (drawingFindings input).1
    warnings := c.warnings ++ (drawingFindings input).2 }

/-- Embedding of `_validate_bom` as a state transformer (`checked_items` is set only
when the file was decoded). -/
def validateBom (c : Checker) (input : Except String BomData) : Checker :=
  let r := bomFindings input
  { c with
    violations := c.violations ++ r.1
    warnings := c.warnings ++ r.2.1
    checkedItems := r.2.2.getD c.checkedItems }

/-- Embedding of `_calculate_risk_cost`: dollar total from the two finding lists. -/
def riskCostTotal (c : Checker) : Nat :=
  c.violations.length * 50000 + c.warnings.length * 5000

/-- Walk the reversed digit list, inserting a comma before every third
digit (counting from the least significant); `i` is the current digit
position. -/
def withCommasRev : List Char → Nat → List Char
  | [], _ => []
  | c :: rest, i =>
      if i % 3 == 0 && i != 0 then ',' :: c :: withCommasRev rest (i + 1)
      else c :: withCommasRev rest (i + 1)

/-- Python `f"{n:,}"` for a natural number: decimal digits grouped in
threes by commas. -/
def commaGroup (n : Nat) : String :=
  ⟨(withCommasRev (toString n).data.reverse 0).reverse⟩

/-- Python `f"{total/1000000:.1f}"`: the dollar total in millions to one
decimal place.  The source formats an IEEE double; this models it by
exact half-up decimal rounding, which agrees with the double formatting
except possibly at exact `.x5` ties, where the double's binary
representation error decides the direction. -/
def millionsOneDecimal (total : Nat) : String :=
  let tenths := (total * 10 + 500000) / 1000000
  toString (tenths / 10) ++ "." ++ toString (tenths % 10)

/-- Embedding of the rendering in `_calculate_risk_cost` of a dollar total. -/
def renderRiskCost (total : Nat) : String :=
  if total > 1000000 then
    "$" ++ millionsOneDecimal total ++ "M potential exposure"
  else if total > 0 then
    "$" ++ commaGroup total ++ " potential exposure"
  else
    "Minimal risk"

/-- Embedding of `_calculate_risk_cost`. -/
def calculateRiskCost (c : Checker) : String :=
  renderRiskCost (riskCostTotal c)

/-- The report dictionary of `_generate_report` (the wall-clock
`timestamp` field is outside the embedding; the `summary` sub-dictionary
is flattened into the three `summary*` fields). -/
structure Report where
  status : String
  riskScore : Nat
  violations : List Finding
  warnings : List Finding
  checkedItems : Nat
  summaryTotalViolations : Nat
  summaryTotalWarnings : Nat
  summaryEstimatedRisk : String
deriving DecidableEq, Repr

/-- Embedding of `_generate_report`. -/
def generateReport (c : Checker) : Report :=
  { status := if c.violations.length == 0 then "PASS" else "FAIL"
    riskScore := c.riskScore
    violations := c.violations
    warnings := c.warnings
    checkedItems := c.checkedItems
    summaryTotalViolations := c.violations.length
    summaryTotalWarnings := c.warnings.length
    summaryEstimatedRisk := calculateRiskCost c }

/-- Embedding of `validate_document`: reset the per-call lists and score, dispatch on
the document type, compute the risk score, and return the report together
with the instance state it leaves behind. -/
def validateDocument (c : Checker) (d : DocInput) : Checker × Report :=
  let c0 := { c with violations := [], warnings := [], riskScore := 0 }
  let c1 :=
    match d with
    | .drawing t => validateDrawing c0 t
    | .bom b => validateBom c0 b
    | .other => c0
  let c2 := { c1 with
    riskScore := min 100 (c1.violations.length * 15 + c1.warnings.length * 5) }
  (c2, generateReport c2)

/-- The report of a validation run. -/
def runReport (c : Checker) (d : DocInput) : Report :=
  (validateDocument c d).2

/-! ### Concrete example inputs -/

/-- A one-row BOM whose only firing rule is the ITAR part-number check
(the part number contains the indicator `MS`). -/
def bomItarOnly : BomData :=
  { columns := ["Part Number"]
    rows := [[("Part Number", some "MS20470")]] }

/-- A one-row BOM with a part number and a cadmium material value. -/
def bomCadmium : BomData :=
  { columns := ["Part Number", "Material"]
    rows := [[("Part Number", some "PN-7"),
              ("Material", some "Cadmium Plating 0.002in")]] }

/-- A two-row BOM: the first row is missing its part number, the second
carries a restricted material.  The missing-part rule is checked after
the material rule inside the loop, yet its finding comes first in the
output because the loop iterates rows on the outside. -/
def bomOrderSwap : BomData :=
  { columns := ["Part Number", "Material"]
    rows := [[("Part Number", none), ("Material", some "steel")],
             [("Part Number", some "XQ-17"), ("Material", some "Cadmium plate")]] }

/-- The five-row BOM of the spec's worked example: rows 2 and 4
(1-based) have missing part numbers. -/
def bomFiveRows : BomData :=
  { columns := ["Part Number"]
    rows := [[("Part Number", some "P1")],
             [("Part Number", none)],
             [("Part Number", some "P3")],
             [("Part Number", none)],
             [("Part Number", some "P5")]] }

/-- A one-row BOM whose part number contains the word `PANEL` (and so
the ITAR indicator `AN`). -/
def bomPanel : BomData :=
  { columns := ["Part Number"]
    rows := [[("Part Number", some "PANEL-100")]] }

/-- A checker instance carrying leftover state from earlier calls. -/
def dirtyChecker : Checker :=
  { violations := [itarMarkingViolation]
    warnings := [revisionWarning]
    riskScore := 75
    checkedItems := 42 }

/-! ### Supporting lemmas -/

theorem filter_flatMap_comm {α β : Type} (l : List α) (g : α → List β)
    (q : β → Bool) :
    (l.flatMap g).filter q = l.flatMap (fun x => (g x).filter q) := by
  induction l with
  | nil => rfl
  | cons a t ih => simp [List.flatMap_cons, List.filter_append, ih]

theorem length_flatMap_single {α β : Type} (l : List α) (g : α → List β)
    (p : α → Bool) (h : ∀ x, (g x).length = if p x then 1 else 0) :
    (l.flatMap g).length = l.countP p := by
  induction l with
  | nil => rfl
  | cons a t ih =>
      simp only [List.flatMap_cons, List.length_append, ih, List.countP_cons, h a]
      split <;> omega

theorem countP_enumFrom {α : Type} (l : List α) (n : Nat) (q : α → Bool) :
    (l.enumFrom n).countP (fun p => q p.2) = l.countP q := by
  induction l generalizing n with
  | nil => rfl
  | cons a t ih => simp [List.enumFrom, List.countP_cons, ih]

theorem enumFrom_append {α : Type} (l₁ l₂ : List α) (n : Nat) :
    (l₁ ++ l₂).enumFrom n = l₁.enumFrom n ++ l₂.enumFrom (n + l₁.length) := by
  induction l₁ generalizing n with
  | nil => simp [List.enumFrom]
  | cons a t ih =>
      simp [List.enumFrom, ih, List.length_cons]
      have h : n + 1 + t.length = n + (t.length + 1) := by omega
      rw [h]

theorem validateDocument_report (c : Checker) (d : DocInput) :
    (validateDocument c d).2 = generateReport (validateDocument c d).1 := rfl

theorem generateReport_status_iff (ck : Checker) :
    (generateReport ck).status = "FAIL" ↔ ck.violations ≠ [] := by
  unfold generateReport
  rcases ck.violations with _ | ⟨f, t⟩ <;> simp

theorem runReport_bom_violations (c : Checker) (bom : BomData) :
    (runReport c (.bom (.ok bom))).violations =
      (bom.rows.enumFrom 0).flatMap
        (bomRowViolations (findColumn bom.columns ["Part Number", "P/N", "Part"])
          (findColumn bom.columns ["Material", "Mat", "Composition"])) := rfl

theorem runReport_bom_warnings (c : Checker) (bom : BomData) :
    (runReport c (.bom (.ok bom))).warnings =
      (bom.rows.enumFrom 0).flatMap
        (bomRowWarnings (findColumn bom.columns ["Part Number", "P/N", "Part"])
          (findColumn bom.columns ["Supplier", "Vendor", "Manufacturer"])) := rfl

theorem mem_materialRowFinding (pc mc : Option String) (i : Nat) (r : BomRow)
    (f : Finding) (hf : f ∈ materialRowFinding pc mc i r) :
    f.rule = "AS9100-MAT-002" ∧ f.severity = "HIGH" := by
  unfold materialRowFinding at hf
  split at hf
  · simp at hf
  · split at hf
    · simp at hf
    · dsimp only at hf
      split at hf
      · rw [List.mem_singleton] at hf
        subst hf
        exact ⟨rfl, rfl⟩
      · simp at hf

theorem mem_missingPartRowFinding (pc : Option String) (i : Nat) (r : BomRow)
    (f : Finding) (hf : f ∈ missingPartRowFinding pc i r) :
    f.rule = "AS9100-DATA-001" ∧ f.severity = "HIGH" := by
  unfold missingPartRowFinding at hf
  split at hf
  · simp at hf
  · split at hf
    · rw [List.mem_singleton] at hf
      subst hf
      exact ⟨rfl, rfl⟩
    · simp at hf

theorem mem_itarRowFinding (pc : Option String) (i : Nat) (r : BomRow)
    (f : Finding) (hf : f ∈ itarRowFinding pc i r) :
    f.rule = "ITAR-BOM-001" ∧ f.severity = "HIGH" := by
  unfold itarRowFinding at hf
  split at hf
  · simp at hf
  · split at hf
    · rw [List.mem_singleton] at hf
      subst hf
      exact ⟨rfl, rfl⟩
    · simp at hf

theorem mem_supplierRowFinding (sc : Option String) (i : Nat) (r : BomRow)
    (f : Finding) (hf : f ∈ supplierRowFinding sc i r) :
    f.rule = "AS9100-SUP-001" ∧ f.severity = "MEDIUM" := by
  unfold supplierRowFinding at hf
  split at hf
  · simp at hf
  · split at hf
    · simp at hf
    · split at hf
      · simp at hf
      · rw [List.mem_singleton] at hf
        subst hf
        exact ⟨rfl, rfl⟩

theorem bomRowViolations_filter_data (pc mc : Option String)
    (ir : Nat × BomRow) :
    (bomRowViolations pc mc ir).filter (fun f => f.rule == "AS9100-DATA-001") =
      missingPartRowFinding pc ir.1 ir.2 := by
  unfold bomRowViolations
  rw [List.filter_append]
  have h1 : (materialRowFinding pc mc ir.1 ir.2).filter
      (fun f => f.rule == "AS9100-DATA-001") = [] := by
    rw [List.filter_eq_nil_iff]
    intro a ha
    simp [(mem_materialRowFinding pc mc ir.1 ir.2 a ha).1]
  have h2 : (missingPartRowFinding pc ir.1 ir.2).filter
      (fun f => f.rule == "AS9100-DATA-001") = missingPartRowFinding pc ir.1 ir.2 := by
    rw [List.filter_eq_self]
    intro a ha
    simp [(mem_missingPartRowFinding pc ir.1 ir.2 a ha).1]
  rw [h1, h2, List.nil_append]

theorem bomRowViolations_filter_mat (pc mc : Option String)
    (ir : Nat × BomRow) :
    (bomRowViolations pc mc ir).filter (fun f => f.rule == "AS9100-MAT-002") =
      materialRowFinding pc mc ir.1 ir.2 := by
  unfold bomRowViolations
  rw [List.filter_append]
  have h1 : (materialRowFinding pc mc ir.1 ir.2).filter
      (fun f => f.rule == "AS9100-MAT-002") = materialRowFinding pc mc ir.1 ir.2 := by
    rw [List.filter_eq_self]
    intro a ha
    simp [(mem_materialRowFinding pc mc ir.1 ir.2 a ha).1]
  have h2 : (missingPartRowFinding pc ir.1 ir.2).filter
      (fun f => f.rule == "AS9100-MAT-002") = [] := by
    rw [List.filter_eq_nil_iff]
    intro a ha
    simp [(mem_missingPartRowFinding pc ir.1 ir.2 a ha).1]
  rw [h1, h2, List.append_nil]

theorem bomRowWarnings_filter_itar (pc sc : Option String)
    (ir : Nat × BomRow) :
    (bomRowWarnings pc sc ir).filter (fun f => f.rule == "ITAR-BOM-001") =
      itarRowFinding pc ir.1 ir.2 := by
  unfold bomRowWarnings
  rw [List.filter_append]
  have h1 : (itarRowFinding pc ir.1 ir.2).filter
      (fun f => f.rule == "ITAR-BOM-001") = itarRowFinding pc ir.1 ir.2 := by
    rw [List.filter_eq_self]
    intro a ha
    simp [(mem_itarRowFinding pc ir.1 ir.2 a ha).1]
  have h2 : (supplierRowFinding sc ir.1 ir.2).filter
      (fun f => f.rule == "ITAR-BOM-001") = [] := by
    rw [List.filter_eq_nil_iff]
    intro a ha
    simp [(mem_supplierRowFinding sc ir.1 ir.2 a ha).1]
  rw [h1, h2, List.append_nil]

theorem bomRowViolations_all_high (pc mc : Option String) (ir : Nat × BomRow) :
    ∀ f ∈ bomRowViolations pc mc ir, f.severity = "HIGH" := by
  intro f hf
  unfold bomRowViolations at hf
  rcases List.mem_append.1 hf with h | h
  · exact (mem_materialRowFinding pc mc ir.1 ir.2 f h).2
  · exact (mem_missingPartRowFinding pc ir.1 ir.2 f h).2

theorem drawingFindings_all_high (input : Except String String) :
    ∀ f ∈ (drawingFindings input).1, f.severity = "HIGH" := by
  intro f hf
  rcases input with e | text
  · simp [drawingFindings] at hf
  · simp only [drawingFindings] at hf
    rcases List.mem_append.1 hf with h | h
    · rcases List.mem_append.1 h with h2 | h2
      · split at h2
        · simp at h2
        · rw [List.mem_singleton] at h2
          subst h2
          rfl
      · obtain ⟨m, _, rfl⟩ := List.mem_map.1 h2
        rfl
    · split at h
      · simp at h
      · rw [List.mem_singleton] at h
        subst h
        rfl

theorem runReport_violations_all_high (c : Checker) (d : DocInput) :
    ∀ f ∈ (runReport c d).violations, f.severity = "HIGH" := by
  intro f hf
  rcases d with t | b | _
  · exact drawingFindings_all_high t f (by simpa [runReport, validateDocument,
      validateDrawing, generateReport] using hf)
  · rcases b with e | bom
    · simp [runReport, validateDocument, validateBom, bomFindings,
        generateReport] at hf
    · rw [runReport_bom_violations] at hf
      obtain ⟨ir, _, hmem⟩ := List.mem_flatMap.1 hf
      exact bomRowViolations_all_high _ _ ir f hmem
  · simp [runReport, validateDocument, generateReport] at hf

theorem generateReport_status_pass (ck : Checker) (h : ck.violations = []) :
    (generateReport ck).status = "PASS" := by
  unfold generateReport
  rw [h]
  rfl

theorem runReport_status_iff (c : Checker) (d : DocInput) :
    (runReport c d).status = "FAIL" ↔ (runReport c d).violations ≠ [] :=
  generateReport_status_iff (validateDocument c d).1

theorem runReport_status_pass (c : Checker) (d : DocInput)
    (h : (runReport c d).violations = []) : (runReport c d).status = "PASS" :=
  generateReport_status_pass (validateDocument c d).1 h

theorem runReport_riskScore (c : Checker) (d : DocInput) :
    (runReport c d).riskScore
      = min 100 ((runReport c d).violations.length * 15
          + (runReport c d).warnings.length * 5) := rfl

theorem runReport_estimatedRisk (c : Checker) (d : DocInput) :
    (runReport c d).summaryEstimatedRisk
      = renderRiskCost ((runReport c d).violations.length * 50000
          + (runReport c d).warnings.length * 5000) := rfl

theorem runReport_bom_filter_data (c : Checker) (bom : BomData) (pc : String)
    (hpc : findColumn bom.columns ["Part Number", "P/N", "Part"] = some pc) :
    (runReport c (.bom (.ok bom))).violations.filter
        (fun f => f.rule == "AS9100-DATA-001")
      = (bom.rows.enumFrom 0).flatMap
          (fun ir => missingPartRowFinding (some pc) ir.1 ir.2) := by
  rw [runReport_bom_violations, filter_flatMap_comm]
  have h : (fun ir => (bomRowViolations
        (findColumn bom.columns ["Part Number", "P/N", "Part"])
        (findColumn bom.columns ["Material", "Mat", "Composition"]) ir).filter
          (fun f => f.rule == "AS9100-DATA-001"))
      = fun ir : Nat × BomRow => missingPartRowFinding
          (findColumn bom.columns ["Part Number", "P/N", "Part"]) ir.1 ir.2 :=
    funext fun ir => bomRowViolations_filter_data _ _ ir
  rw [h, hpc]

theorem runReport_bom_filter_mat (c : Checker) (bom : BomData) (mc : String)
    (hmc : findColumn bom.columns ["Material", "Mat", "Composition"] = some mc) :
    (runReport c (.bom (.ok bom))).violations.filter
        (fun f => f.rule == "AS9100-MAT-002")
      = (bom.rows.enumFrom 0).flatMap
          (fun ir => materialRowFinding
              (findColumn bom.columns ["Part Number", "P/N", "Part"])
              (some mc) ir.1 ir.2) := by
  rw [runReport_bom_violations, filter_flatMap_comm]
  have h : (fun ir => (bomRowViolations
        (findColumn bom.columns ["Part Number", "P/N", "Part"])
        (findColumn bom.columns ["Material", "Mat", "Composition"]) ir).filter
          (fun f => f.rule == "AS9100-MAT-002"))
      = fun ir : Nat × BomRow => materialRowFinding
          (findColumn bom.columns ["Part Number", "P/N", "Part"])
          (findColumn bom.columns ["Material", "Mat", "Composition"]) ir.1 ir.2 :=
    funext fun ir => bomRowViolations_filter_mat _ _ ir
  rw [h, hmc]

theorem runReport_bom_filter_itar (c : Checker) (bom : BomData) (pc : String)
    (hpc : findColumn bom.columns ["Part Number", "P/N", "Part"] = some pc) :
    (runReport c (.bom (.ok bom))).warnings.filter
        (fun f => f.rule == "ITAR-BOM-001")
      = (bom.rows.enumFrom 0).flatMap
          (fun ir => itarRowFinding (some pc) ir.1 ir.2) := by
  rw [runReport_bom_warnings, filter_flatMap_comm]
  have h : (fun ir => (bomRowWarnings
        (findColumn bom.columns ["Part Number", "P/N", "Part"])
        (findColumn bom.columns ["Supplier", "Vendor", "Manufacturer"]) ir).filter
          (fun f => f.rule == "ITAR-BOM-001"))
      = fun ir : Nat × BomRow => itarRowFinding
          (findColumn bom.columns ["Part Number", "P/N", "Part"]) ir.1 ir.2 :=
    funext fun ir => bomRowWarnings_filter_itar _ _ ir
  rw [h, hpc]

/-! ### Claim theorems -/

/-- C1 counterexample: a BOM whose single row carries an ITAR-indicator
part number produces exactly one finding, of severity High, in the
warnings list, and the report status is PASS — so status is not FAIL
whenever a High-severity finding exists, contrary to the claim. -/
theorem claim1_counterexample :
    (runReport initChecker (.bom (.ok bomItarOnly))).warnings.countP
        (fun f => f.severity == "HIGH") = 1 ∧
    (runReport initChecker (.bom (.ok bomItarOnly))).violations = [] ∧
    (runReport initChecker (.bom (.ok bomItarOnly))).status = "PASS" := by
  decide

/-- C1 (amended): the report status is FAIL exactly when the violations
list is non-empty, and every violations-list finding has severity High;
a High-severity finding routed to warnings (ITAR-BOM-001) does not cause
FAIL. -/
theorem claim1_status_iff_violations (c : Checker) (d : DocInput) :
    ((runReport c d).status = "FAIL" ↔ (runReport c d).violations ≠ []) ∧
    (∀ f ∈ (runReport c d).violations, f.severity = "HIGH") :=
  ⟨runReport_status_iff c d, runReport_violations_all_high c d⟩

/-- C1 witness: on the cadmium BOM the violations list is non-empty and
the amended theorem yields status FAIL. -/
theorem claim1_witness :
    (runReport initChecker (.bom (.ok bomCadmium))).status = "FAIL" :=
  (claim1_status_iff_violations initChecker (.bom (.ok bomCadmium))).1.mpr
    (by decide)

/-- C2 counterexample: on the ITAR-only BOM there is exactly one
High-severity finding and no other finding, yet the risk score is 5, not
the claimed `min(100, 15 x 1 + 5 x 0) = 15`. -/
theorem claim2_counterexample :
    ((runReport initChecker (.bom (.ok bomItarOnly))).violations ++
        (runReport initChecker (.bom (.ok bomItarOnly))).warnings).countP
        (fun f => f.severity == "HIGH") = 1 ∧
    ((runReport initChecker (.bom (.ok bomItarOnly))).violations ++
        (runReport initChecker (.bom (.ok bomItarOnly))).warnings).countP
        (fun f => !(f.severity == "HIGH")) = 0 ∧
    (runReport initChecker (.bom (.ok bomItarOnly))).riskScore = 5 ∧
    min 100 (15 * 1 + 5 * 0) = 15 := by
  decide

/-- C2 (amended): the risk score is `min(100, 15 x |violations| + 5 x
|warnings|)` — counting list membership, not severity; the formula is
monotone non-decreasing in the violation count and saturates at 100 (7
violations give 100, 8 still give 100). -/
theorem claim2_risk_formula (c : Checker) (d : DocInput) :
    (runReport c d).riskScore
      = min 100 ((runReport c d).violations.length * 15
          + (runReport c d).warnings.length * 5) ∧
    (∀ v v2 w : Nat, v ≤ v2 →
        min 100 (v * 15 + w * 5) ≤ min 100 (v2 * 15 + w * 5)) ∧
    min 100 (7 * 15) = 100 ∧ min 100 (8 * 15) = 100 :=
  ⟨runReport_riskScore c d,
   fun v v2 w h => by omega,
   by norm_num, by norm_num⟩

/-- C2 witness: the amended formula evaluated on the ITAR-only BOM gives
risk score 5, and the monotonicity clause at 3 ≤ 4 violations. -/
theorem claim2_witness :
    (runReport initChecker (.bom (.ok bomItarOnly))).riskScore = 5 ∧
    min 100 (3 * 15 + 2 * 5) ≤ min 100 (4 * 15 + 2 * 5) :=
  ⟨((claim2_risk_formula initChecker (.bom (.ok bomItarOnly))).1).trans
      (by decide),
   (claim2_risk_formula initChecker DocInput.other).2.1 3 4 2 (by decide)⟩

/-- C5 counterexample: when BOM decoding raises, the single emitted
finding has severity MEDIUM (not Low) and its fix is "Check file format
and structure" (not a manual-review recommendation), contrary to the
claim's "for both the drawing path and the BOM path". -/
theorem claim5_counterexample :
    (runReport initChecker (.bom (.error "decode failed"))).warnings
      = [bomSystemWarning "decode failed"] ∧
    (bomSystemWarning "decode failed").severity = "MEDIUM" ∧
    (bomSystemWarning "decode failed").severity ≠ "LOW" ∧
    (bomSystemWarning "decode failed").fix = "Check file format and structure" := by
  decide

/-- C5 (amended): a decode failure never aborts: a complete report is
produced with exactly one SYSTEM finding — Low severity with fix "Manual
review recommended" on the drawing path, Medium severity with fix "Check
file format and structure" on the BOM path — and status PASS, risk 5. -/
theorem claim5_decode_failure (c : Checker) (e : String) :
    (runReport c (.drawing (.error e))).violations = [] ∧
    (runReport c (.drawing (.error e))).warnings = [drawingSystemWarning e] ∧
    (drawingSystemWarning e).severity = "LOW" ∧
    (drawingSystemWarning e).fix = "Manual review recommended" ∧
    (runReport c (.drawing (.error e))).status = "PASS" ∧
    (runReport c (.drawing (.error e))).riskScore = 5 ∧
    (runReport c (.bom (.error e))).violations = [] ∧
    (runReport c (.bom (.error e))).warnings = [bomSystemWarning e] ∧
    (bomSystemWarning e).severity = "MEDIUM" ∧
    (bomSystemWarning e).fix = "Check file format and structure" ∧
    (runReport c (.bom (.error e))).status = "PASS" ∧
    (runReport c (.bom (.error e))).riskScore = 5 :=
  ⟨rfl, rfl, rfl, rfl, rfl, rfl, rfl, rfl, rfl, rfl, rfl, rfl⟩

/-- C5 witness: the amended theorem at a concrete exception message. -/
theorem claim5_witness :
    (runReport initChecker (.drawing (.error "PDF extraction failed: bad header"))).warnings
      = [drawingSystemWarning "PDF extraction failed: bad header"] :=
  (claim5_decode_failure initChecker "PDF extraction failed: bad header").2.1

/-- C6 (confirmed): `validate_document` resets the per-call lists and
score, so reports for the same input agree on findings, status, risk
score, and all summary fields, whatever state earlier calls left on the
checker instance. -/
theorem claim6_stateless (c c2 : Checker) (d : DocInput) :
    (runReport c d).status = (runReport c2 d).status ∧
    (runReport c d).riskScore = (runReport c2 d).riskScore ∧
    (runReport c d).violations = (runReport c2 d).violations ∧
    (runReport c d).warnings = (runReport c2 d).warnings ∧
    (runReport c d).summaryTotalViolations = (runReport c2 d).summaryTotalViolations ∧
    (runReport c d).summaryTotalWarnings = (runReport c2 d).summaryTotalWarnings ∧
    (runReport c d).summaryEstimatedRisk = (runReport c2 d).summaryEstimatedRisk := by
  cases d <;> exact ⟨rfl, rfl, rfl, rfl, rfl, rfl, rfl⟩

/-- C6 witness: a dirtied checker instance and a fresh one produce the
same status on the same input. -/
theorem claim6_witness :
    (runReport dirtyChecker (.bom (.ok bomItarOnly))).status
      = (runReport initChecker (.bom (.ok bomItarOnly))).status :=
  (claim6_stateless dirtyChecker initChecker (.bom (.ok bomItarOnly))).1

/-- C3 counterexample: on the ITAR-only BOM the single finding has
severity High, yet the exposure string is "$5,000 potential exposure"
(the $5,000 warning weight), not the "$50,000 potential exposure" the
claimed per-High $50,000 weight would give. -/
theorem claim3_counterexample :
    ((runReport initChecker (.bom (.ok bomItarOnly))).violations ++
        (runReport initChecker (.bom (.ok bomItarOnly))).warnings).countP
        (fun f => f.severity == "HIGH") = 1 ∧
    ((runReport initChecker (.bom (.ok bomItarOnly))).violations ++
        (runReport initChecker (.bom (.ok bomItarOnly))).warnings).countP
        (fun f => !(f.severity == "HIGH")) = 0 ∧
    (runReport initChecker (.bom (.ok bomItarOnly))).summaryEstimatedRisk
      = "$5,000 potential exposure" ∧
    renderRiskCost (50000 * 1 + 5000 * 0) = "$50,000 potential exposure" := by
  decide

/-- C3 (amended): the exposure string renders `50000 x |violations| +
5000 x |warnings|` — per list, not per severity —; it is the "$X.YM"
form above one million dollars, a comma-grouped dollar amount when
positive, and exactly "Minimal risk" when there are no findings; a run
with zero findings also has risk score 0 and status PASS. -/
theorem claim3_exposure (c : Checker) (d : DocInput) :
    (runReport c d).summaryEstimatedRisk
      = renderRiskCost ((runReport c d).violations.length * 50000
          + (runReport c d).warnings.length * 5000) ∧
    ((runReport c d).violations = [] ∧ (runReport c d).warnings = [] →
        (runReport c d).summaryEstimatedRisk = "Minimal risk"
          ∧ (runReport c d).riskScore = 0
          ∧ (runReport c d).status = "PASS") ∧
    (∀ t : Nat, 1000000 < t →
        renderRiskCost t = "$" ++ millionsOneDecimal t ++ "M potential exposure") ∧
    (∀ t : Nat, 0 < t → t ≤ 1000000 →
        renderRiskCost t = "$" ++ commaGroup t ++ " potential exposure") ∧
    renderRiskCost 0 = "Minimal risk" := by
  refine ⟨runReport_estimatedRisk c d, ?_, ?_, ?_, rfl⟩
  · rintro ⟨hv, hw⟩
    refine ⟨?_, ?_, runReport_status_pass c d hv⟩
    · rw [runReport_estimatedRisk c d, hv, hw]
      rfl
    · rw [runReport_riskScore c d, hv, hw]
      rfl
  · intro t ht
    unfold renderRiskCost
    rw [if_pos ht]
  · intro t ht h1
    unfold renderRiskCost
    rw [if_neg (by omega), if_pos ht]

/-- C3 witness: the amended theorem at a run with zero findings, and at
the ITAR-only BOM where the totals formula gives the warning weight. -/
theorem claim3_witness :
    (runReport initChecker DocInput.other).summaryEstimatedRisk = "Minimal risk" ∧
    (runReport initChecker DocInput.other).riskScore = 0 ∧
    (runReport initChecker DocInput.other).status = "PASS" ∧
    renderRiskCost 250000 = "$250,000 potential exposure" :=
  ⟨((claim3_exposure initChecker DocInput.other).2.1 ⟨rfl, rfl⟩).1,
   ((claim3_exposure initChecker DocInput.other).2.1 ⟨rfl, rfl⟩).2.1,
   ((claim3_exposure initChecker DocInput.other).2.1 ⟨rfl, rfl⟩).2.2,
   ((claim3_exposure initChecker DocInput.other).2.2.2.1 250000 (by decide)
      (by decide)).trans (by decide)⟩

/-- C4 counterexample: on a two-row BOM where row 1 misses its part
number and row 2 carries a restricted material, the violations come out
as [AS9100-DATA-001, AS9100-MAT-002] even though the material check runs
before the missing-part check for each row — rule-catalog order would
put every AS9100-MAT-002 finding first. -/
theorem claim4_counterexample :
    (runReport initChecker (.bom (.ok bomOrderSwap))).violations.map
        (fun f => f.rule) = ["AS9100-DATA-001", "AS9100-MAT-002"] ∧
    ["AS9100-DATA-001", "AS9100-MAT-002"] ≠ ["AS9100-MAT-002", "AS9100-DATA-001"] := by
  decide

/-- C4 (amended): findings are appended in row order (the loop iterates
rows on the outside), and within a single row in the fixed check order —
material then missing-part into violations, ITAR then supplier into
warnings; appending a row to a BOM appends exactly that row's findings
at the end of the output, so the output is deterministic in the input. -/
theorem claim4_row_major (c : Checker) (bom : BomData) (r : BomRow) :
    (runReport c (.bom (.ok bom))).violations
      = (bom.rows.enumFrom 0).flatMap
          (bomRowViolations (findColumn bom.columns ["Part Number", "P/N", "Part"])
            (findColumn bom.columns ["Material", "Mat", "Composition"])) ∧
    (runReport c (.bom (.ok bom))).warnings
      = (bom.rows.enumFrom 0).flatMap
          (bomRowWarnings (findColumn bom.columns ["Part Number", "P/N", "Part"])
            (findColumn bom.columns ["Supplier", "Vendor", "Manufacturer"])) ∧
    (∀ pc mc : Option String, ∀ ir : Nat × BomRow,
        bomRowViolations pc mc ir
          = materialRowFinding pc mc ir.1 ir.2 ++ missingPartRowFinding pc ir.1 ir.2) ∧
    (runReport c (.bom (.ok { bom with rows := bom.rows ++ [r] }))).violations
      = (runReport c (.bom (.ok bom))).violations
          ++ bomRowViolations (findColumn bom.columns ["Part Number", "P/N", "Part"])
              (findColumn bom.columns ["Material", "Mat", "Composition"])
              (bom.rows.length, r) := by
  refine ⟨runReport_bom_violations c bom, runReport_bom_warnings c bom,
    fun pc mc ir => rfl, ?_⟩
  rw [runReport_bom_violations, runReport_bom_violations]
  show ((bom.rows ++ [r]).enumFrom 0).flatMap _ = _
  rw [enumFrom_append, List.flatMap_append]
  simp [List.enumFrom]

/-- C4 witness: the amended theorem on the two-row BOM: row-major order
with the per-row contributions of each of its rows. -/
theorem claim4_witness :
    (runReport initChecker (.bom (.ok bomOrderSwap))).violations
      = (bomOrderSwap.rows.enumFrom 0).flatMap
          (bomRowViolations (some "Part Number") (some "Material")) :=
  ((claim4_row_major initChecker bomOrderSwap []).1).trans (by decide)

/-- C7 (confirmed): the missing-part-number rule fires exactly once per
row whose part cell is absent, in row order; its firing count equals the
number of such rows; a qualifying 0-based row `i` yields exactly the one
High finding with location "Row (i + 2)" (1-based position plus header
offset 1), and a non-qualifying row yields none. -/
theorem claim7_missing_part (c : Checker) (bom : BomData) (pc : String)
    (hpc : findColumn bom.columns ["Part Number", "P/N", "Part"] = some pc) :
    (runReport c (.bom (.ok bom))).violations.filter
        (fun f => f.rule == "AS9100-DATA-001")
      = (bom.rows.enumFrom 0).flatMap
          (fun ir => missingPartRowFinding (some pc) ir.1 ir.2) ∧
    ((runReport c (.bom (.ok bom))).violations.filter
        (fun f => f.rule == "AS9100-DATA-001")).length
      = bom.rows.countP (fun r => (rowGet r pc).isNone) ∧
    (∀ i : Nat, ∀ r : BomRow, rowGet r pc = none →
        missingPartRowFinding (some pc) i r
          = [{ rule := "AS9100-DATA-001", description := "Missing part number",
               severity := "HIGH", fix := "All items must have part numbers",
               costImpact := none, loc := some ("Row " ++ toString (i + 2)) }]) ∧
    (∀ i : Nat, ∀ r : BomRow, ∀ v : String, rowGet r pc = some v →
        missingPartRowFinding (some pc) i r = []) := by
  have hsingle : ∀ ir : Nat × BomRow,
      (missingPartRowFinding (some pc) ir.1 ir.2).length
        = if (rowGet ir.2 pc).isNone then 1 else 0 := by
    intro ir
    unfold missingPartRowFinding
    rcases h : rowGet ir.2 pc with _ | v <;> simp [h]
  refine ⟨runReport_bom_filter_data c bom pc hpc, ?_, ?_, ?_⟩
  · rw [runReport_bom_filter_data c bom pc hpc,
      length_flatMap_single _ _ (fun ir => (rowGet ir.2 pc).isNone) hsingle]
    exact countP_enumFrom bom.rows 0 (fun r => (rowGet r pc).isNone)
  · intro i r h
    unfold missingPartRowFinding
    dsimp only
    rw [h]
    rfl
  · intro i r v h
    unfold missingPartRowFinding
    dsimp only
    rw [h]

/-- C7 witness: the spec's worked example — a five-row BOM whose rows 2
and 4 (1-based) lack part numbers yields exactly the two findings with
locations "Row 3" and "Row 5". -/
theorem claim7_witness :
    (runReport initChecker (.bom (.ok bomFiveRows))).violations.filter
        (fun f => f.rule == "AS9100-DATA-001")
      = [{ rule := "AS9100-DATA-001", description := "Missing part number",
           severity := "HIGH", fix := "All items must have part numbers",
           costImpact := none, loc := some "Row 3" },
         { rule := "AS9100-DATA-001", description := "Missing part number",
           severity := "HIGH", fix := "All items must have part numbers",
           costImpact := none, loc := some "Row 5" }] ∧
    ((runReport initChecker (.bom (.ok bomFiveRows))).violations.filter
        (fun f => f.rule == "AS9100-DATA-001")).length = 2 := by
  have h := claim7_missing_part initChecker bomFiveRows "Part Number" (by decide)
  exact ⟨h.1.trans (by decide), h.2.1.trans (by decide)⟩

/-- C9 (confirmed): the restricted-material rule fires exactly once per
row whose material cell uppercases to a string containing a restricted
substring, in row order; a qualifying 0-based row `i` yields exactly the
one High AS9100-MAT-002 finding whose location references "Row (i + 2)". -/
theorem claim9_restricted_material (c : Checker) (bom : BomData) (mc : String)
    (hmc : findColumn bom.columns ["Material", "Mat", "Composition"] = some mc) :
    (runReport c (.bom (.ok bom))).violations.filter
        (fun f => f.rule == "AS9100-MAT-002")
      = (bom.rows.enumFrom 0).flatMap
          (fun ir => materialRowFinding
              (findColumn bom.columns ["Part Number", "P/N", "Part"])
              (some mc) ir.1 ir.2) ∧
    (∀ pc : Option String, ∀ i : Nat, ∀ r : BomRow, ∀ v : String,
        rowGet r mc = some v → isRestrictedMaterial (pyUpper v) = true →
        materialRowFinding pc (some mc) i r
          = [{ rule := "AS9100-MAT-002",
               description := "Restricted material in BOM: " ++ pyUpper v,
               severity := "HIGH", fix := "Replace with approved material",
               costImpact := none,
               loc := some ("Row " ++ toString (i + 2) ++ ", Part: "
                 ++ partDisplay pc r) }]) ∧
    (∀ pc : Option String, ∀ i : Nat, ∀ r : BomRow, ∀ v : String,
        rowGet r mc = some v → isRestrictedMaterial (pyUpper v) = false →
        materialRowFinding pc (some mc) i r = []) := by
  refine ⟨runReport_bom_filter_mat c bom mc hmc, ?_, ?_⟩
  · intro pc i r v h hres
    unfold materialRowFinding
    dsimp only
    rw [h]
    dsimp only
    rw [if_pos hres]
    rfl
  · intro pc i r v h hres
    unfold materialRowFinding
    dsimp only
    rw [h]
    dsimp only
    rw [if_neg (by simp [hres])]

/-- C9 witness: a BOM row with material "Cadmium Plating 0.002in"
(containing "cadmium" case-insensitively) yields exactly one High
AS9100-MAT-002 finding referencing its row. -/
theorem claim9_witness :
    (runReport initChecker (.bom (.ok bomCadmium))).violations.filter
        (fun f => f.rule == "AS9100-MAT-002")
      = [{ rule := "AS9100-MAT-002",
           description := "Restricted material in BOM: CADMIUM PLATING 0.002IN",
           severity := "HIGH", fix := "Replace with approved material",
           costImpact := none, loc := some "Row 2, Part: PN-7" }] := by
  have h := claim9_restricted_material initChecker bomCadmium "Material" (by decide)
  exact h.1.trans (by decide)

/-- C10 (confirmed): a row whose part number uppercases to contain an
ITAR indicator yields exactly one HIGH-severity ITAR-BOM-001 finding,
appended to the warnings list; no violations-list finding ever has rule
ITAR-BOM-001; the risk score weighs warnings at 5 points; an empty
violations list gives status PASS; and "PANEL" matches the indicator
"AN". -/
theorem claim10_itar_warning (c : Checker) (bom : BomData) (pc : String)
    (hpc : findColumn bom.columns ["Part Number", "P/N", "Part"] = some pc) :
    (runReport c (.bom (.ok bom))).warnings.filter
        (fun f => f.rule == "ITAR-BOM-001")
      = (bom.rows.enumFrom 0).flatMap
          (fun ir => itarRowFinding (some pc) ir.1 ir.2) ∧
    (∀ f ∈ (runReport c (.bom (.ok bom))).violations, f.rule ≠ "ITAR-BOM-001") ∧
    (∀ i : Nat, ∀ r : BomRow,
        isItarControlled (strOfCell (rowGet r pc)) = true →
        itarRowFinding (some pc) i r
          = [{ rule := "ITAR-BOM-001",
               description := "ITAR controlled part: " ++ strOfCell (rowGet r pc),
               severity := "HIGH", fix := "Ensure proper export licensing",
               costImpact := none, loc := some ("Row " ++ toString (i + 2)) }]) ∧
    (runReport c (.bom (.ok bom))).riskScore
      = min 100 ((runReport c (.bom (.ok bom))).violations.length * 15
          + (runReport c (.bom (.ok bom))).warnings.length * 5) ∧
    ((runReport c (.bom (.ok bom))).violations = [] →
        (runReport c (.bom (.ok bom))).status = "PASS") ∧
    isItarControlled "PANEL" = true := by
  refine ⟨runReport_bom_filter_itar c bom pc hpc, ?_, ?_,
    runReport_riskScore c (.bom (.ok bom)),
    runReport_status_pass c (.bom (.ok bom)), by decide⟩
  · intro f hf
    rw [runReport_bom_violations] at hf
    obtain ⟨ir, _, hmem⟩ := List.mem_flatMap.1 hf
    rcases List.mem_append.1 hmem with h | h
    · rw [(mem_materialRowFinding _ _ _ _ f h).1]
      decide
    · rw [(mem_missingPartRowFinding _ _ _ f h).1]
      decide
  · intro i r h
    unfold itarRowFinding
    dsimp only
    rw [if_pos h]
    rfl

/-- C10 witness: a part number containing "PANEL" yields a HIGH
ITAR-BOM-001 warning, an empty violations list, status PASS, and risk
score 5. -/
theorem claim10_witness :
    (runReport initChecker (.bom (.ok bomPanel))).warnings.filter
        (fun f => f.rule == "ITAR-BOM-001")
      = [{ rule := "ITAR-BOM-001",
           description := "ITAR controlled part: PANEL-100",
           severity := "HIGH", fix := "Ensure proper export licensing",
           costImpact := none, loc := some "Row 2" }] ∧
    (runReport initChecker (.bom (.ok bomPanel))).status = "PASS" ∧
    (runReport initChecker (.bom (.ok bomPanel))).riskScore = 5 := by
  have h := claim10_itar_warning initChecker bomPanel "Part Number" (by decide)
  exact ⟨h.1.trans (by decide), h.2.2.2.2.1 (by decide),
    h.2.2.2.1.trans (by decide)⟩

/-- C8 counterexample: "Rev A" and "REV A" are equal up to letter case,
yet the revision-mark check accepts the first and rejects the second
(the regexes demand a lowercase "ev" and an uppercase revision token), so
the resulting findings differ. -/
theorem claim8_counterexample :
    pyLower "Rev A" = pyLower "REV A" ∧
    checkRevisionMarking "Rev A" = true ∧
    checkRevisionMarking "REV A" = false ∧
    (runReport initChecker (.drawing (.ok "Rev A"))).warnings = [] ∧
    (runReport initChecker (.drawing (.ok "REV A"))).warnings = [revisionWarning] := by
  decide

/-- C8 (amended): the export-marking and traceability flags are
case-insensitive — texts equal up to letter case get equal flags — and a
text containing "ITAR" in any case sets the export-marking flag and
suppresses the ITAR-001 violation; the revision-mark flag, however, is
computed by case-sensitive regular expressions. -/
theorem claim8_markers (s t text : String) (h : pyLower s = pyLower t) :
    checkItarMarking s = checkItarMarking t ∧
    checkTraceability s = checkTraceability t ∧
    (pyIn "itar" (pyLower text) = true →
      checkItarMarking text = true ∧
      (drawingFindings (.ok text)).1.filter (fun f => f.rule == "ITAR-001") = []) := by
  refine ⟨by simp only [checkItarMarking, h], by simp only [checkTraceability, h], ?_⟩
  intro hin
  have h1 : checkItarMarking text = true := by
    unfold checkItarMarking
    have hK : pyLower "ITAR" = "itar" := by decide
    simp only [List.any_cons, hK, hin, Bool.true_or]
  refine ⟨h1, ?_⟩
  rw [List.filter_eq_nil_iff]
  intro a ha
  simp only [drawingFindings, h1] at ha
  simp only [if_true, eq_self_iff_true, List.nil_append, List.mem_append] at ha
  rcases ha with ha | ha
  · obtain ⟨m, _, rfl⟩ := List.mem_map.1 ha
    simp [materialViolation]
  · split at ha
    · simp at ha
    · rw [List.mem_singleton] at ha
      subst ha
      decide

/-- C8 witness: a mixed-case "ItAr" text and its uppercase variant give
the same flags, the flag is set, and no ITAR-001 violation is emitted. -/
theorem claim8_witness :
    checkItarMarking "Note: ItAr controlled" = true ∧
    (drawingFindings (.ok "Note: ItAr controlled")).1.filter
        (fun f => f.rule == "ITAR-001") = [] :=
  (claim8_markers "Note: ItAr controlled" "NOTE: ITAR CONTROLLED"
    "Note: ItAr controlled" (by decide)).2.2 (by decide)

end AeroCheck
